import Mathlib

/-!
# Verification of the zenith page service and safekeeper WAL-receive endpoint

A shallow embedding of the request/response logic of
`pageserver/src/page_service.rs` and `walkeeper/src/receive_wal.rs`, with
theorems settling the specification's claims about them.

Bytes are modelled as `List Nat` (each element one octet); machine integers
are `Nat` (the embedded code only reads and rewrites them, never overflows).
Fallible collaborator calls return `Except String`; a Rust panic is modelled
as `Option.none` at the point where the source can panic.
-/

namespace PageService

/-- A 64-bit log sequence number (`Lsn` in `zenith_utils::lsn`). -/
abbrev Lsn := Nat

/-- `RelTag` from `pageserver::repository`: identifies a relation fork. -/
structure RelTag where
  spcnode : Nat
  dbnode : Nat
  relnode : Nat
  forknum : Nat
deriving DecidableEq

/-- `BufferTag` from `pageserver::repository`: a page within a relation. -/
structure BufferTag where
  rel : RelTag
  blknum : Nat
deriving DecidableEq

/-- `ObjectTag` from `pageserver::object_key`.  The page service only ever
constructs the `RelationBuffer` variant; the remaining variants of the
collaborator type are abstracted into `OtherTag`. -/
inductive ObjectTag where
  | RelationBuffer (tag : BufferTag)
  | OtherTag (k : Nat)
deriving DecidableEq

/-- The body of every pagestream request (`PagestreamRequest`). -/
structure PagestreamRequest where
  spcnode : Nat
  dbnode : Nat
  relnode : Nat
  forknum : Nat
  blkno : Nat
  lsn : Lsn
deriving DecidableEq

/-- `PagestreamFeMessage`: the three request kinds carried inside `CopyData`. -/
inductive PagestreamFeMessage where
  | Exists (req : PagestreamRequest)
  | Nblocks (req : PagestreamRequest)
  | Read (req : PagestreamRequest)
deriving DecidableEq

/-- `PagestreamStatusResponse`. -/
structure PagestreamStatusResponse where
  ok : Bool
  n_blocks : Nat
deriving DecidableEq

/-- `PagestreamReadResponse`; `page` is the raw page bytes. -/
structure PagestreamReadResponse where
  ok : Bool
  n_blocks : Nat
  page : List Nat
deriving DecidableEq

/-- `PagestreamBeMessage`: the three response kinds carried inside `CopyData`. -/
inductive PagestreamBeMessage where
  | Status (resp : PagestreamStatusResponse)
  | Nblocks (resp : PagestreamStatusResponse)
  | Read (resp : PagestreamReadResponse)
deriving DecidableEq

/-- `bytes::Buf::get_u8`: `none` models the panic on an exhausted buffer. -/
def getU8 : List Nat → Option (Nat × List Nat)
  | [] => none
  | b :: rest => some (b, rest)

/-- `bytes::Buf::get_u32` (big-endian); `none` models the panic. -/
def getU32 : List Nat → Option (Nat × List Nat)
  | b0 :: b1 :: b2 :: b3 :: rest =>
      some (((b0 * 256 + b1) * 256 + b2) * 256 + b3, rest)
  | _ => none

/-- `bytes::Buf::get_u64` (big-endian); `none` models the panic. -/
def getU64 : List Nat → Option (Nat × List Nat)
  | b0 :: b1 :: b2 :: b3 :: b4 :: b5 :: b6 :: b7 :: rest =>
      let hi := ((b0 * 256 + b1) * 256 + b2) * 256 + b3
      let lo := ((b4 * 256 + b5) * 256 + b6) * 256 + b7
      some (hi * 2 ^ 32 + lo, rest)
  | _ => none

/-- `PagestreamFeMessage::parse`.  The source reads the tag byte and all six
request fields with `get_u8`/`get_u32`/`get_u64` *before* matching on the
tag, so a short buffer panics (`none`), while an unknown tag on a buffer of
at least 26 bytes returns `Err` (`some (.error _)`). -/
def PagestreamFeMessage.parse (body : List Nat) :
    Option (Except String PagestreamFeMessage) := do
  let (smgr_tag, body) ← getU8 body
  let (spcnode, body) ← getU32 body
  let (dbnode, body) ← getU32 body
  let (relnode, body) ← getU32 body
  let (forknum, body) ← getU8 body
  let (blkno, body) ← getU32 body
  let (lsn, _body) ← getU64 body
  let zreq : PagestreamRequest :=
    ⟨spcnode, dbnode, relnode, forknum, blkno, lsn⟩
  match smgr_tag with
  | 0 => some (.ok (.Exists zreq))
  | 1 => some (.ok (.Nblocks zreq))
  | 2 => some (.ok (.Read zreq))
  | _ => some (.error "unknown smgr message tag")

/-- `put_u8` of a `bool` (`resp.ok as u8`). -/
def boolByte (b : Bool) : Nat := if b then 1 else 0

/-- `put_u32` big-endian byte split. -/
def u32be (n : Nat) : List Nat :=
  [n / 2 ^ 24 % 256, n / 2 ^ 16 % 256, n / 2 ^ 8 % 256, n % 256]

/-- `PagestreamBeMessage::serialize`: tag byte 100/101/102, ok byte,
`n_blocks` as big-endian u32, and for `Read` the raw page bytes. -/
def PagestreamBeMessage.serialize : PagestreamBeMessage → List Nat
  | .Status resp => 100 :: boolByte resp.ok :: u32be resp.n_blocks
  | .Nblocks resp => 101 :: boolByte resp.ok :: u32be resp.n_blocks
  | .Read resp => 102 :: boolByte resp.ok :: (u32be resp.n_blocks ++ resp.page)

/-- The repository `Timeline` collaborator, restricted to the operations the
pagestream and basebackup handlers call.  Fields are oracles: any
implementation satisfying the repository interface instantiates them. -/
structure Timeline where
  get_rel_exists : RelTag → Lsn → Except String Bool
  get_rel_size : RelTag → Lsn → Except String Nat
  get_page_at_lsn : ObjectTag → Lsn → Except String (List Nat)
  get_last_valid_lsn : Lsn

/-- The FE messages the pagestream loop can read (`FeMessage` subset). -/
inductive FeMessage where
  | CopyData (bytes : List Nat)
  | CopyDone
  | Sync
  | Other (k : Nat)
deriving DecidableEq

/-- Whether an FE message is `CopyData` (the only kind the pagestream loop
consumes; every other kind hits the `_ => continue` arm). -/
def isCopyData : FeMessage → Bool
  | .CopyData _ => true
  | _ => false

/-- `const ZERO_PAGE: [u8; 8192] = [0; 8192]`. -/
def ZERO_PAGE : List Nat := List.replicate 8192 0

/-- The `RelTag` built from a request's fields inside the match arms. -/
def reqRelTag (req : PagestreamRequest) : RelTag :=
  ⟨req.spcnode, req.dbnode, req.relnode, req.forknum⟩

/-- The `ObjectTag` built for a Read request. -/
def readObjectTag (req : PagestreamRequest) : ObjectTag :=
  .RelationBuffer ⟨reqRelTag req, req.blkno⟩

/-- One iteration body of `handle_pagerequests`: dispatch a parsed request
to the timeline and build the response.
`Exists` uses `get_rel_exists(..).unwrap_or(false)`;
`Nblocks` uses `get_rel_size(..).unwrap_or(0)` with `ok: true`;
`Read` returns the page on success and the zero page with `ok: false`
on failure. -/
def handle_request (timeline : Timeline) : PagestreamFeMessage → PagestreamBeMessage
  | .Exists req =>
      let exist := match timeline.get_rel_exists (reqRelTag req) req.lsn with
        | .ok b => b
        | .error _ => false
      .Status ⟨exist, 0⟩
  | .Nblocks req =>
      let n_blocks := match timeline.get_rel_size (reqRelTag req) req.lsn with
        | .ok n => n
        | .error _ => 0
      .Nblocks ⟨true, n_blocks⟩
  | .Read req =>
      match timeline.get_page_at_lsn (readObjectTag req) req.lsn with
      | .ok p => .Read ⟨true, 0, p⟩
      | .error _ => .Read ⟨false, 0, ZERO_PAGE⟩

/-- How a pagestream session can end. -/
inductive SessionEnd where
  | clean
  | errored (msg : String)
  | panicked
deriving DecidableEq

/-- The read/dispatch/respond loop of `PageServerHandler::handle_pagerequests`,
as a function of the finite list of FE messages read from the socket (the
end of the list is `read_message()` returning `None`, which exits the loop
cleanly).  Returns the `CopyData` responses written, in order, and how the
session ended.  A parse `Err` propagates out of the loop (`?`), and a parse
panic aborts the thread. -/
def handle_pagerequests (timeline : Timeline) :
    List FeMessage → List PagestreamBeMessage × SessionEnd
  | [] => ([], .clean)
  | .CopyData bytes :: rest =>
      match PagestreamFeMessage.parse bytes with
      | none => ([], .panicked)
      | some (.error e) => ([], .errored e)
      | some (.ok msg) =>
          let response := handle_request timeline msg
          let r := handle_pagerequests timeline rest
          (response :: r.1, r.2)
  | .CopyDone :: rest => handle_pagerequests timeline rest
  | .Sync :: rest => handle_pagerequests timeline rest
  | .Other _ :: rest => handle_pagerequests timeline rest

/-- The requests the loop accepts, in reading order: the successfully parsed
`CopyData` payloads before the first parse failure, with non-`CopyData`
messages skipped. -/
def acceptedRequests : List FeMessage → List PagestreamFeMessage
  | [] => []
  | .CopyData bytes :: rest =>
      match PagestreamFeMessage.parse bytes with
      | some (.ok msg) => msg :: acceptedRequests rest
      | _ => []
  | .CopyDone :: rest => acceptedRequests rest
  | .Sync :: rest => acceptedRequests rest
  | .Other _ :: rest => acceptedRequests rest

/-- `Modification { tag, lsn, data }` from `pageserver::repository`, the
record deserialized from each `CopyData` payload of a push stream. -/
structure Modification where
  tag : ObjectTag
  lsn : Lsn
  data : List Nat
deriving DecidableEq

/-- The FE messages the push loop can read.  `CopyData` carries the already
deserialized `Modification`; a payload on which `Modification::des` fails is
`CopyDataBad`. -/
inductive PushFeMessage where
  | CopyData (m : Modification)
  | CopyDataBad
  | CopyDone
  | Sync
  | Other (k : Nat)
deriving DecidableEq

/-- The mutable timeline state the push branch manipulates.  `entries` is
the log of `put_raw_data` calls, `last_valid_lsn` the value read back by
`get_last_valid_lsn`. -/
structure PushTimeline where
  last_valid_lsn : Lsn
  entries : List (ObjectTag × Lsn × List Nat)
deriving DecidableEq

/-- Modelled from the spec: `create_empty_timeline(TimelineId, start_lsn)`
of the repository interface (§6) creates a fresh timeline whose last-valid
LSN starts at `start_lsn` and which holds no data. -/
def create_empty_timeline (start_lsn : Lsn) : PushTimeline :=
  ⟨start_lsn, []⟩

/-- Modelled from the spec: `put_raw_data(tag, lsn, data)` of the repository
interface (§6) records a page version; it does not touch the last-valid LSN. -/
def PushTimeline.put_raw_data (tl : PushTimeline) (tag : ObjectTag)
    (lsn : Lsn) (data : List Nat) : PushTimeline :=
  ⟨tl.last_valid_lsn, tl.entries ++ [(tag, lsn, data)]⟩

/-- Modelled from the spec: `advance_last_valid_lsn(lsn)` of the repository
interface (§6) moves the timeline's last-valid LSN forward to `lsn`, never
backwards. -/
def PushTimeline.advance_last_valid_lsn (tl : PushTimeline) (lsn : Lsn) :
    PushTimeline :=
  ⟨max tl.last_valid_lsn lsn, tl.entries⟩

/-- The `while let Some(msg) = pgb.read_message()?` loop of the push branch
of `process_query`: `CopyData` deserializes a `Modification`, applies it
with `put_raw_data` and overwrites `last_lsn` with the modification's LSN;
`CopyDone` calls `advance_last_valid_lsn(last_lsn)` and breaks; `Sync` is
skipped; any other message is a `bail!` error; end of input is
`read_message` returning `None`, which exits the loop without advancing. -/
def push_loop (tl : PushTimeline) (last_lsn : Lsn) :
    List PushFeMessage → PushTimeline × Except String Unit
  | [] => (tl, .ok ())
  | .CopyData m :: rest =>
      push_loop (tl.put_raw_data m.tag m.lsn m.data) m.lsn rest
  | .CopyDataBad :: _ => (tl, .error "deserialization failed")
  | .CopyDone :: _ => (tl.advance_last_valid_lsn last_lsn, .ok ())
  | .Sync :: rest => push_loop tl last_lsn rest
  | .Other _ :: _ => (tl, .error "unexpected message")

/-- The push branch of `process_query` after argument parsing: create an
empty timeline at `start_lsn = Lsn(0)`, set `last_lsn = Lsn(0)`, run the
copy-in loop. -/
def process_push (msgs : List PushFeMessage) : PushTimeline × Except String Unit :=
  push_loop (create_empty_timeline 0) 0 msgs

/-- The largest LSN among the `CopyData` modifications of a push stream. -/
def streamMaxLsn : List PushFeMessage → Lsn
  | [] => 0
  | .CopyData m :: rest => max m.lsn (streamMaxLsn rest)
  | _ :: rest => streamMaxLsn rest

/-- What the handler sends back for a control verb, as far as the claims
need: a `CommandComplete` or an `ErrorResponse` carrying the error text. -/
inductive ClientReply where
  | commandComplete
  | errorResponse (msg : String)
deriving DecidableEq

/-- Modelled from the spec: the tenant registry (§4.F, §6) maps tenant ids
to repositories; `insert(tenant_id, repository)` returns `Ok` or `Conflict`
and a double insert is rejected leaving the registry unchanged. -/
structure TenantRegistry where
  tenants : List (Nat × Nat)
deriving DecidableEq

/-- Modelled from the spec: registry insert, rejecting double inserts with
a conflict (§4.F "The registry must reject double inserts by reporting a
conflict", §6 `insert(tenant_id, repository) -> Ok | Conflict`). -/
def TenantRegistry.insert (reg : TenantRegistry) (tenantid : Nat)
    (repo : Nat) : Except String TenantRegistry :=
  if reg.tenants.any (fun p => p.1 = tenantid) then .error "Conflict"
  else .ok ⟨reg.tenants ++ [(tenantid, repo)]⟩

/-- The `tenant_create` branch of `process_query` after the tenant id is
parsed: it builds a redo manager and a repository (`branches::create_repo`,
modelled from the spec as constructing a fresh repository), then calls
`page_cache::insert_repository_for_tenant(tenantid, ..)` *as a bare
statement*, so whatever the insert reports is discarded, and the handler
unconditionally writes the row description and `CommandComplete`. -/
def tenant_create (reg : TenantRegistry) (tenantid : Nat) :
    TenantRegistry × ClientReply :=
  let repo := reg.tenants.length
  let regAfter := match reg.insert tenantid repo with
    | .ok r => r
    | .error _ => reg
  (regAfter, .commandComplete)

/-- The argument handling of the `basebackup` branch of `process_query`:
the query text after `"basebackup "` is split on single spaces into
`params`; `ensure!(params.len() == 2, ..)` rejects everything else; only
then is `params.len() == 3` consulted for the optional LSN (dead code under
the `ensure!`).  Returns the tenant and timeline tokens and the optional
LSN token. -/
def basebackupCommand (params : List String) :
    Except String (String × String × Option String) :=
  if params.length = 2 then
    let lsn : Option String :=
      if params.length = 3 then some (params.getD 2 "") else none
    .ok (params.getD 0 "", params.getD 1 "", lsn)
  else .error "invalid param number for basebackup command"

/-- The LSN at which `handle_basebackup_request` produces the backup:
`lsn.unwrap_or_else(|| timeline.get_last_valid_lsn())`. -/
def handle_basebackup_req_lsn (timeline : Timeline) (lsn : Option Lsn) : Lsn :=
  match lsn with
  | some l => l
  | none => timeline.get_last_valid_lsn

end PageService

namespace ReceiveWal

/-- The fields of a proposer `Greeting` the endpoint reads. -/
structure ProposerGreeting where
  system_id : Nat
  tli : Nat
  tenant_id : Nat
deriving DecidableEq

/-- `ProposerAcceptorMessage`: the consensus messages decoded from inbound
`CopyData` payloads.  Only the `Greeting` variant is inspected by the
endpoint; the other variants of the collaborator type are abstracted. -/
inductive ProposerAcceptorMessage where
  | Greeting (g : ProposerGreeting)
  | OtherMsg (k : Nat)
deriving DecidableEq

/-- `AcceptorProposerMessage`: a reply to be serialized into `CopyData`. -/
structure AcceptorProposerMessage where
  payload : Nat
deriving DecidableEq

/-- The safekeeper `Timeline` collaborator, restricted to the consensus
hook the claims need: `process_msg` may return an optional reply or fail. -/
structure Timeline where
  process_msg : ProposerAcceptorMessage →
    Except String (Option AcceptorProposerMessage)

/-- The FE messages `ReceiveWalConn::read_msg` can encounter.  `CopyData`
carries the decoded `ProposerAcceptorMessage`; a payload on which
`ProposerAcceptorMessage::parse` fails is `CopyDataUndecodable`; any
non-`CopyData` FE message is `OtherFe`.  End of the list is `read_message`
returning `None`. -/
inductive FeWalMessage where
  | CopyData (msg : ProposerAcceptorMessage)
  | CopyDataUndecodable
  | OtherFe (k : Nat)
deriving DecidableEq

/-- `ReceiveWalConn::read_msg`: the next message must be a decodable
`CopyData`; a non-`CopyData` message, an undecodable payload, and end of
stream are all errors. -/
def read_msg : List FeWalMessage →
    Except String (ProposerAcceptorMessage × List FeWalMessage)
  | [] => .error "connection closed unexpectedly"
  | .CopyData m :: rest => .ok (m, rest)
  | .CopyDataUndecodable :: _ => .error "failed to parse ProposerAcceptorMessage"
  | .OtherFe _ :: _ => .error "expected CopyData message"

/-- The `CopyData` writes produced by one optional reply
(`if let Some(reply) = reply { self.write_msg(&reply)?; }`). -/
def writtenReplies : Option AcceptorProposerMessage → List AcceptorProposerMessage
  | some r => [r]
  | none => []

/-- The streaming loop of `ReceiveWalConn::run` starting from a message
already in hand: hand `msg` to `process_msg`, write the optional reply
back, read the next message, repeat; the loop only exits through an error
(end of stream included: `read_msg` turns EOF into an error).  Returns the
messages handed to `process_msg` in order, the replies written in order,
and the exit outcome. -/
def streamLoop (tl : Timeline) (msg : ProposerAcceptorMessage) :
    List FeWalMessage →
      List ProposerAcceptorMessage × List AcceptorProposerMessage ×
        Except String Unit
  | [] =>
    match tl.process_msg msg with
    | .error e => ([msg], [], .error e)
    | .ok reply =>
        ([msg], writtenReplies reply, .error "connection closed unexpectedly")
  | .CopyData m2 :: rest =>
    match tl.process_msg msg with
    | .error e => ([msg], [], .error e)
    | .ok reply =>
        let r := streamLoop tl m2 rest
        (msg :: r.1, writtenReplies reply ++ r.2.1, r.2.2)
  | .CopyDataUndecodable :: _ =>
    match tl.process_msg msg with
    | .error e => ([msg], [], .error e)
    | .ok reply =>
        ([msg], writtenReplies reply, .error "failed to parse ProposerAcceptorMessage")
  | .OtherFe _ :: _ =>
    match tl.process_msg msg with
    | .error e => ([msg], [], .error e)
    | .ok reply =>
        ([msg], writtenReplies reply, .error "expected CopyData message")

/-- The observable outcome of `ReceiveWalConn::run`. -/
structure RunResult where
  processed : List ProposerAcceptorMessage
  replies : List AcceptorProposerMessage
  stopCalls : Nat
  outcome : Except String Unit

/-- `ReceiveWalConn::run`: read the first message, require it to be a
`Greeting`, call `continue_streaming`, create the `SendWalHandlerGuard`
*only when a pageserver connection string was supplied*, then run the
streaming loop with the greeting itself as the first message.  When the
function exits, the guard — when it was created — is dropped exactly once,
and its `Drop` impl calls `stop_streaming`; `stopCalls` counts those
calls. -/
def run (tl : Timeline) (pageserver_connstr : Option String)
    (inbound : List FeWalMessage) : RunResult :=
  match read_msg inbound with
  | .error _ => ⟨[], [], 0, .error "failed to receive proposer greeting"⟩
  | .ok (msg, rest) =>
    match msg with
    | .Greeting g =>
        let guardCreated := pageserver_connstr.isSome
        let r := streamLoop tl (.Greeting g) rest
        ⟨r.1, r.2.1, if guardCreated then 1 else 0, r.2.2⟩
    | .OtherMsg _ => ⟨[], [], 0, .error "unexpected message instead of greeting"⟩

/-- A session is established when the first read succeeds and yields a
`Greeting` (the handshake of `run` is passed). -/
def greetingAccepted (inbound : List FeWalMessage) : Bool :=
  match read_msg inbound with
  | .ok (.Greeting _, _) => true
  | _ => false

end ReceiveWal

namespace PageService

/-- A concrete repository timeline on which every operation succeeds. -/
def sampleTimeline : Timeline where
  get_rel_exists := fun _ _ => .ok true
  get_rel_size := fun _ _ => .ok 3
  get_page_at_lsn := fun _ _ => .ok (List.replicate 8192 1)
  get_last_valid_lsn := 42

/-- A concrete repository timeline on which every operation fails. -/
def failTimeline : Timeline where
  get_rel_exists := fun _ _ => .error "repository failure"
  get_rel_size := fun _ _ => .error "repository failure"
  get_page_at_lsn := fun _ _ => .error "repository failure"
  get_last_valid_lsn := 0

/-- A concrete repository timeline on which no relation exists. -/
def absentTimeline : Timeline where
  get_rel_exists := fun _ _ => .ok false
  get_rel_size := fun _ _ => .ok 0
  get_page_at_lsn := fun _ _ => .error "relation absent"
  get_last_valid_lsn := 0

/-- The 26-byte wire encoding of the Read request
`(spc=1, db=2, rel=3, fork=0, blk=4, lsn=5)`. -/
def readReqBytes : List Nat :=
  [2, 0, 0, 0, 1, 0, 0, 0, 2, 0, 0, 0, 3, 0, 0, 0, 0, 4, 0, 0, 0, 0, 0, 0, 0, 5]

/-- The 26-byte wire encoding of the Exists request
`(spc=1, db=2, rel=3, fork=0, blk=4, lsn=5)`. -/
def existsReqBytes : List Nat :=
  [0, 0, 0, 0, 1, 0, 0, 0, 2, 0, 0, 0, 3, 0, 0, 0, 0, 4, 0, 0, 0, 0, 0, 0, 0, 5]

theorem handle_pagerequests_fst (timeline : Timeline) (msgs : List FeMessage) :
    (handle_pagerequests timeline msgs).1
      = (acceptedRequests msgs).map (handle_request timeline) := by
  induction msgs with
  | nil => rfl
  | cons m rest ih =>
    cases m with
    | CopyData bytes =>
      cases hp : PagestreamFeMessage.parse bytes with
      | none => simp [handle_pagerequests, acceptedRequests, hp]
      | some r =>
        cases r with
        | error e => simp [handle_pagerequests, acceptedRequests, hp]
        | ok msg => simp [handle_pagerequests, acceptedRequests, hp, ih]
    | CopyDone => simpa [handle_pagerequests, acceptedRequests] using ih
    | Sync => simpa [handle_pagerequests, acceptedRequests] using ih
    | Other k => simpa [handle_pagerequests, acceptedRequests] using ih

/-- Claim C1: for every accepted pagestream request on a single connection,
the handler emits exactly one response, in the exact order the requests were
read (the response list is the map of the dispatch function over the
accepted-request list); the response constructor and leading tag byte match
the request kind (Exists yields Status with tag 100, Nblocks tag 101, Read
tag 102); and FE messages other than `CopyData` are ignored and do not
advance the request queue. -/
theorem pagestream_one_response_per_request_in_order
    (timeline : Timeline) (msgs : List FeMessage) :
    (handle_pagerequests timeline msgs).1
        = (acceptedRequests msgs).map (handle_request timeline)
    ∧ (∀ q : PagestreamRequest,
        (∃ r, handle_request timeline (.Exists q) = .Status r)
        ∧ (handle_request timeline (.Exists q)).serialize.head? = some 100)
    ∧ (∀ q : PagestreamRequest,
        (∃ r, handle_request timeline (.Nblocks q) = .Nblocks r)
        ∧ (handle_request timeline (.Nblocks q)).serialize.head? = some 101)
    ∧ (∀ q : PagestreamRequest,
        (∃ r, handle_request timeline (.Read q) = .Read r)
        ∧ (handle_request timeline (.Read q)).serialize.head? = some 102)
    ∧ (∀ (m : FeMessage) (rest : List FeMessage), isCopyData m = false →
        handle_pagerequests timeline (m :: rest)
          = handle_pagerequests timeline rest) := by
  refine ⟨handle_pagerequests_fst timeline msgs, ?_, ?_, ?_, ?_⟩
  · intro q
    cases h : timeline.get_rel_exists (reqRelTag q) q.lsn with
    | ok b =>
      exact ⟨⟨⟨b, 0⟩, by simp [handle_request, h]⟩,
        by simp [handle_request, h, PagestreamBeMessage.serialize]⟩
    | error e =>
      exact ⟨⟨⟨false, 0⟩, by simp [handle_request, h]⟩,
        by simp [handle_request, h, PagestreamBeMessage.serialize]⟩
  · intro q
    cases h : timeline.get_rel_size (reqRelTag q) q.lsn with
    | ok n =>
      exact ⟨⟨⟨true, n⟩, by simp [handle_request, h]⟩,
        by simp [handle_request, h, PagestreamBeMessage.serialize]⟩
    | error e =>
      exact ⟨⟨⟨true, 0⟩, by simp [handle_request, h]⟩,
        by simp [handle_request, h, PagestreamBeMessage.serialize]⟩
  · intro q
    cases h : timeline.get_page_at_lsn (readObjectTag q) q.lsn with
    | ok p =>
      exact ⟨⟨⟨true, 0, p⟩, by simp [handle_request, h]⟩,
        by simp [handle_request, h, PagestreamBeMessage.serialize]⟩
    | error e =>
      exact ⟨⟨⟨false, 0, ZERO_PAGE⟩, by simp [handle_request, h]⟩,
        by simp [handle_request, h, PagestreamBeMessage.serialize]⟩
  · intro m rest hm
    cases m with
    | CopyData bytes => simp [isCopyData] at hm
    | CopyDone => rfl
    | Sync => rfl
    | Other k => rfl

/-- Witness for C1 at a concrete timeline and message list, with the
ignore-hypothesis discharged at `Sync`. -/
theorem pagestream_one_response_per_request_in_order_witness :
    (handle_pagerequests sampleTimeline [FeMessage.Sync]).1
        = (acceptedRequests [FeMessage.Sync]).map (handle_request sampleTimeline)
    ∧ handle_pagerequests sampleTimeline (FeMessage.Sync :: [])
        = handle_pagerequests sampleTimeline [] :=
  ⟨(pagestream_one_response_per_request_in_order sampleTimeline [FeMessage.Sync]).1,
   (pagestream_one_response_per_request_in_order sampleTimeline []).2.2.2.2
     FeMessage.Sync [] rfl⟩

/-- Claim C2: when `get_page_at_lsn` fails for a Read request, the response
is `Read{ok=false, n_blocks=0}` with a page of 8192 bytes that are all
zero, and the session continues: the remaining messages are processed
exactly as they would be on their own. -/
theorem read_failure_zero_page_session_continues
    (timeline : Timeline) (bytes : List Nat) (req : PagestreamRequest)
    (rest : List FeMessage) (e : String)
    (hparse : PagestreamFeMessage.parse bytes = some (.ok (.Read req)))
    (hfail : timeline.get_page_at_lsn (readObjectTag req) req.lsn = .error e) :
    handle_pagerequests timeline (.CopyData bytes :: rest)
      = (PagestreamBeMessage.Read ⟨false, 0, ZERO_PAGE⟩
             :: (handle_pagerequests timeline rest).1,
         (handle_pagerequests timeline rest).2)
    ∧ ZERO_PAGE.length = 8192
    ∧ ∀ b ∈ ZERO_PAGE, b = 0 := by
  refine ⟨?_, by simp only [ZERO_PAGE, List.length_replicate],
    fun b hb => List.eq_of_mem_replicate hb⟩
  simp [handle_pagerequests, hparse, handle_request, hfail]

/-- Witness for C2: a failing repository, one concrete Read request. -/
theorem read_failure_zero_page_session_continues_witness :
    handle_pagerequests failTimeline (FeMessage.CopyData readReqBytes :: [])
      = (PagestreamBeMessage.Read ⟨false, 0, ZERO_PAGE⟩
             :: (handle_pagerequests failTimeline []).1,
         (handle_pagerequests failTimeline []).2)
    ∧ ZERO_PAGE.length = 8192
    ∧ ∀ b ∈ ZERO_PAGE, b = 0 :=
  read_failure_zero_page_session_continues failTimeline readReqBytes
    ⟨1, 2, 3, 0, 4, 5⟩ [] "repository failure" rfl rfl

theorem serialize_read_length (r : PagestreamReadResponse) :
    (PagestreamBeMessage.Read r).serialize.length = 6 + r.page.length := by
  simp [PagestreamBeMessage.serialize, u32be]
  omega

theorem handle_request_read_shape (timeline : Timeline)
    (msg : PagestreamFeMessage) (r : PagestreamReadResponse)
    (h : handle_request timeline msg = .Read r) :
    r.page = ZERO_PAGE
    ∨ ∃ q p, msg = .Read q
        ∧ timeline.get_page_at_lsn (readObjectTag q) q.lsn = .ok p
        ∧ r.page = p := by
  cases msg with
  | Exists q => simp [handle_request] at h
  | Nblocks q => simp [handle_request] at h
  | Read q =>
    cases hp : timeline.get_page_at_lsn (readObjectTag q) q.lsn with
    | ok p =>
      right
      simp only [handle_request, hp, PagestreamBeMessage.Read.injEq] at h
      exact ⟨q, p, rfl, hp, by rw [← h]⟩
    | error e =>
      left
      simp only [handle_request, hp, PagestreamBeMessage.Read.injEq] at h
      rw [← h]

/-- Claim C6: every Read response the pagestream loop emits — success or
failure — carries a page of exactly 8192 bytes, so its serialized
`CopyData` payload is exactly 8198 bytes, provided the repository honours
its page-size contract (§3: pages are `BLCKSZ = 8192` bytes). -/
theorem read_response_page_8192_payload_8198
    (timeline : Timeline) (msgs : List FeMessage)
    (hpage : ∀ t l p, timeline.get_page_at_lsn t l = .ok p → p.length = 8192) :
    ∀ resp ∈ (handle_pagerequests timeline msgs).1,
      ∀ r, resp = PagestreamBeMessage.Read r →
        r.page.length = 8192 ∧ resp.serialize.length = 8198 := by
  intro resp hmem r hr
  subst hr
  have hlen : r.page.length = 8192 := by
    rw [handle_pagerequests_fst] at hmem
    obtain ⟨msg, _, hresp⟩ := List.mem_map.mp hmem
    rcases handle_request_read_shape timeline msg r hresp with h | ⟨q, p, _, hok, hp⟩
    · rw [h]; simp only [ZERO_PAGE, List.length_replicate]
    · rw [hp]; exact hpage _ _ _ hok
  exact ⟨hlen, by rw [serialize_read_length, hlen]⟩

/-- Witness for C6 at a concrete successful Read. -/
theorem read_response_page_8192_payload_8198_witness :
    (PagestreamReadResponse.mk true 0 (List.replicate 8192 1)).page.length = 8192
    ∧ (PagestreamBeMessage.Read
        ⟨true, 0, List.replicate 8192 1⟩).serialize.length = 8198 :=
  read_response_page_8192_payload_8198 sampleTimeline
    [FeMessage.CopyData readReqBytes]
    (fun t l p hp => by
      simp only [sampleTimeline, Except.ok.injEq] at hp
      rw [← hp]; simp only [List.length_replicate])
    (PagestreamBeMessage.Read ⟨true, 0, List.replicate 8192 1⟩)
    (by
      rw [show (handle_pagerequests sampleTimeline
            [FeMessage.CopyData readReqBytes]).1
          = [PagestreamBeMessage.Read ⟨true, 0, List.replicate 8192 1⟩] from rfl]
      exact List.mem_singleton.mpr rfl)
    ⟨true, 0, List.replicate 8192 1⟩ rfl

/-- Claim C8 (code bug): a `CopyData` payload whose kind byte is outside
`{0,1,2}` but which is long enough is rejected with an error as claimed,
but a payload shorter than 26 bytes makes `parse` panic (buffer underflow
in `get_u32`, modelled as `none`) instead of returning an error: the parse
step is not total. -/
theorem pagestream_parse_short_panics :
    PagestreamFeMessage.parse (9 :: List.replicate 25 0)
        = some (.error "unknown smgr message tag")
    ∧ PagestreamFeMessage.parse [2] = none :=
  ⟨rfl, rfl⟩

/-- Claim C9: for an Exists request, a repository error from
`get_rel_exists` is turned by `unwrap_or(false)` into the same
`Status{ok=false, n_blocks=0}` response that a genuinely absent relation
produces, and the session continues. -/
theorem exists_error_indistinguishable_from_absent
    (tlErr tlAbsent : Timeline) (bytes : List Nat) (q : PagestreamRequest)
    (rest : List FeMessage) (e : String)
    (hparse : PagestreamFeMessage.parse bytes = some (.ok (.Exists q)))
    (herr : tlErr.get_rel_exists (reqRelTag q) q.lsn = .error e)
    (habsent : tlAbsent.get_rel_exists (reqRelTag q) q.lsn = .ok false) :
    handle_request tlErr (.Exists q) = .Status ⟨false, 0⟩
    ∧ handle_request tlErr (.Exists q) = handle_request tlAbsent (.Exists q)
    ∧ handle_pagerequests tlErr (.CopyData bytes :: rest)
        = (PagestreamBeMessage.Status ⟨false, 0⟩
               :: (handle_pagerequests tlErr rest).1,
           (handle_pagerequests tlErr rest).2) := by
  have h1 : handle_request tlErr (.Exists q) = .Status ⟨false, 0⟩ := by
    simp [handle_request, herr]
  have h2 : handle_request tlAbsent (.Exists q) = .Status ⟨false, 0⟩ := by
    simp [handle_request, habsent]
  refine ⟨h1, h1.trans h2.symm, ?_⟩
  simp [handle_pagerequests, hparse, h1]

/-- Witness for C9: a failing repository and an absent-relation repository
answer a concrete Exists request identically. -/
theorem exists_error_indistinguishable_from_absent_witness :
    handle_request failTimeline (.Exists ⟨1, 2, 3, 0, 4, 5⟩)
        = .Status ⟨false, 0⟩
    ∧ handle_request failTimeline (.Exists ⟨1, 2, 3, 0, 4, 5⟩)
        = handle_request absentTimeline (.Exists ⟨1, 2, 3, 0, 4, 5⟩)
    ∧ handle_pagerequests failTimeline (.CopyData existsReqBytes :: [])
        = (PagestreamBeMessage.Status ⟨false, 0⟩
               :: (handle_pagerequests failTimeline []).1,
           (handle_pagerequests failTimeline []).2) :=
  exists_error_indistinguishable_from_absent failTimeline absentTimeline
    existsReqBytes ⟨1, 2, 3, 0, 4, 5⟩ [] "repository failure" rfl rfl rfl

/-- A push stream whose LSNs are not monotonically ordered: 30 then 10. -/
def nonMonotonePushStream : List PushFeMessage :=
  [.CopyData ⟨.OtherTag 0, 30, []⟩, .CopyData ⟨.OtherTag 0, 10, []⟩, .CopyDone]

/-- Counterexample to C3: on the stream with LSNs 30 then 10 the push
branch advances the last-valid LSN to 10 — the LSN of the *last*
modification (`last_lsn` is overwritten on every `CopyData`) — not to the
stream maximum 30. -/
theorem push_last_valid_not_max_counterexample :
    (process_push nonMonotonePushStream).1.last_valid_lsn = 10
    ∧ streamMaxLsn nonMonotonePushStream = 30
    ∧ (process_push nonMonotonePushStream).1.last_valid_lsn
        ≠ streamMaxLsn nonMonotonePushStream := by
  refine ⟨by decide, by decide, by decide⟩

theorem push_loop_append_copydone (tl : PushTimeline) (last_lsn : Lsn)
    (mods : List Modification) (m : Modification)
    (hlast : mods.getLast? = some m) :
    ((push_loop tl last_lsn
        (mods.map PushFeMessage.CopyData
          ++ [PushFeMessage.CopyDone])).1).last_valid_lsn
      = max tl.last_valid_lsn m.lsn := by
  induction mods generalizing tl last_lsn with
  | nil => simp at hlast
  | cons a rest ih =>
    cases rest with
    | nil =>
      simp only [List.getLast?_singleton, Option.some.injEq] at hlast
      subst hlast
      simp [push_loop, PushTimeline.put_raw_data,
        PushTimeline.advance_last_valid_lsn]
    | cons b rest2 =>
      rw [List.getLast?_cons_cons] at hlast
      simpa [push_loop, PushTimeline.put_raw_data]
        using ih (tl.put_raw_data a.tag a.lsn a.data) a.lsn hlast

/-- Claim C3 as amended: after `CopyDone` the timeline's last-valid LSN
equals the LSN of the *last* modification received in the `CopyData`
stream (which coincides with the maximum only when the stream's LSNs are
non-decreasing). -/
theorem push_advances_to_last_modification_lsn
    (mods : List Modification) (m : Modification)
    (hlast : mods.getLast? = some m) :
    ((process_push (mods.map PushFeMessage.CopyData
        ++ [PushFeMessage.CopyDone])).1).last_valid_lsn = m.lsn := by
  rw [process_push, push_loop_append_copydone _ _ _ _ hlast]
  simp [create_empty_timeline]

/-- Witness for amended C3 on the non-monotone stream 30, 10. -/
theorem push_advances_to_last_modification_lsn_witness :
    ((process_push (([⟨.OtherTag 0, 30, []⟩, ⟨.OtherTag 0, 10, []⟩]
          : List Modification).map PushFeMessage.CopyData
        ++ [PushFeMessage.CopyDone])).1).last_valid_lsn
      = (⟨.OtherTag 0, 10, []⟩ : Modification).lsn :=
  push_advances_to_last_modification_lsn
    [⟨.OtherTag 0, 30, []⟩, ⟨.OtherTag 0, 10, []⟩] ⟨.OtherTag 0, 10, []⟩ rfl

/-- Claim C5 (code bug): under the spec's registry contract the second
insert for the same tenant is rejected with a conflict and leaves the
registry unchanged, but the `tenant_create` branch discards the insert
outcome and replies `CommandComplete` — no conflict error reaches the
client. -/
theorem tenant_create_twice_conflict_dropped :
    (tenant_create (tenant_create ⟨[]⟩ 17).1 17).1 = (tenant_create ⟨[]⟩ 17).1
    ∧ (tenant_create (tenant_create ⟨[]⟩ 17).1 17).2
        = ClientReply.commandComplete
    ∧ TenantRegistry.insert (tenant_create ⟨[]⟩ 17).1 17 1
        = .error "Conflict" :=
  ⟨rfl, rfl, rfl⟩

/-- Claim C7 (code bug): the `ensure!(params.len() == 2)` guard rejects the
3-argument `basebackup` form outright, so the `params.len() == 3` LSN
branch is dead code and the request LSN is always
`timeline.get_last_valid_lsn()`; an explicit LSN, had it been parsed,
would have been honoured by `handle_basebackup_request`. -/
theorem basebackup_three_args_rejected :
    basebackupCommand ["aa", "bb", "0/16B9188"]
        = .error "invalid param number for basebackup command"
    ∧ basebackupCommand ["aa", "bb"] = .ok ("aa", "bb", none)
    ∧ (∀ params tenant tli lsn,
        basebackupCommand params = .ok (tenant, tli, lsn) → lsn = none)
    ∧ (∀ timeline : Timeline,
        handle_basebackup_req_lsn timeline none = timeline.get_last_valid_lsn)
    ∧ (∀ (timeline : Timeline) (l : Lsn),
        handle_basebackup_req_lsn timeline (some l) = l) := by
  refine ⟨rfl, rfl, ?_, fun _ => rfl, fun _ _ => rfl⟩
  intro params tenant tli lsn h
  rw [basebackupCommand] at h
  split at h
  · rename_i h2
    rw [if_neg (by omega)] at h
    simp only [Except.ok.injEq, Prod.mk.injEq] at h
    exact h.2.2.symm
  · exact Except.noConfusion h

/-- Witness for C7's only hypothesis-bearing conjunct at concrete params. -/
theorem basebackup_three_args_rejected_witness :
    basebackupCommand ["aa", "bb"] = .ok ("aa", "bb", none)
    ∧ (none : Option String) = none :=
  ⟨(basebackup_three_args_rejected).2.1,
   (basebackup_three_args_rejected).2.2.1 ["aa", "bb"] "aa" "bb" none
     (basebackup_three_args_rejected).2.1⟩

end PageService

namespace ReceiveWal

/-- A concrete safekeeper timeline whose `process_msg` always succeeds
without a reply. -/
def sampleTimeline : Timeline := ⟨fun _ => .ok none⟩

/-- A concrete safekeeper timeline that replies to a greeting. -/
def replyTimeline : Timeline :=
  ⟨fun m => match m with
    | .Greeting _ => .ok (some ⟨99⟩)
    | .OtherMsg _ => .ok none⟩

/-- Counterexample to C4: a session whose greeting is accepted but that
supplied no pageserver connection string never invokes `stop_streaming` —
the guard whose `Drop` calls it is only created when a connection string
is present. -/
theorem stop_streaming_skipped_without_connstr :
    greetingAccepted [FeWalMessage.CopyData (.Greeting ⟨1, 1, 7⟩)] = true
    ∧ (run sampleTimeline none
        [FeWalMessage.CopyData (.Greeting ⟨1, 1, 7⟩)]).stopCalls = 0
    ∧ (run sampleTimeline none
        [FeWalMessage.CopyData (.Greeting ⟨1, 1, 7⟩)]).stopCalls ≠ 1 :=
  ⟨rfl, rfl, by decide⟩

/-- Claim C4 as amended: for every established WAL-receive session (one
whose greeting was accepted), `stop_streaming` is invoked exactly once on
every exit path *when a pageserver connection string was supplied*, and is
never invoked when none was supplied. -/
theorem stop_streaming_once_iff_connstr
    (tl : Timeline) (connstr : Option String) (inbound : List FeWalMessage)
    (h : greetingAccepted inbound = true) :
    (run tl connstr inbound).stopCalls = if connstr.isSome then 1 else 0 := by
  cases inbound with
  | nil => simp [greetingAccepted, read_msg] at h
  | cons fe rest =>
    cases fe with
    | CopyData m =>
      cases m with
      | Greeting g => simp [run, read_msg]
      | OtherMsg k => simp [greetingAccepted, read_msg] at h
    | CopyDataUndecodable => simp [greetingAccepted, read_msg] at h
    | OtherFe k => simp [greetingAccepted, read_msg] at h

/-- Witness for amended C4: with a connection string supplied, one
`stop_streaming` call on exit. -/
theorem stop_streaming_once_iff_connstr_witness :
    (run sampleTimeline (some "host=pageserver")
        [FeWalMessage.CopyData (.Greeting ⟨1, 1, 7⟩),
         FeWalMessage.CopyData (.OtherMsg 5)]).stopCalls
      = if (some "host=pageserver").isSome then 1 else 0 :=
  stop_streaming_once_iff_connstr sampleTimeline (some "host=pageserver")
    [FeWalMessage.CopyData (.Greeting ⟨1, 1, 7⟩),
     FeWalMessage.CopyData (.OtherMsg 5)] rfl

theorem streamLoop_processed_head (tl : Timeline)
    (msg : ProposerAcceptorMessage) (inbound : List FeWalMessage) :
    (streamLoop tl msg inbound).1.head? = some msg := by
  cases inbound with
  | nil => cases h : tl.process_msg msg <;> simp [streamLoop, h]
  | cons fe rest =>
    cases fe <;> cases h : tl.process_msg msg <;> simp [streamLoop, h]

theorem streamLoop_replies_head (tl : Timeline)
    (msg : ProposerAcceptorMessage) (inbound : List FeWalMessage)
    (rep : AcceptorProposerMessage)
    (h : tl.process_msg msg = .ok (some rep)) :
    (streamLoop tl msg inbound).2.1.head? = some rep := by
  cases inbound with
  | nil => simp [streamLoop, h, writtenReplies]
  | cons fe rest => cases fe <;> simp [streamLoop, h, writtenReplies]

/-- Claim C10: the accepted Greeting is itself the first message handed to
the timeline's `process_msg` — before any further inbound message is read —
and its optional reply is the first `CopyData` written back. -/
theorem greeting_processed_first (tl : Timeline) (connstr : Option String)
    (g : ProposerGreeting) (rest : List FeWalMessage) :
    (run tl connstr
        (FeWalMessage.CopyData (.Greeting g) :: rest)).processed.head?
      = some (.Greeting g)
    ∧ ∀ rep, tl.process_msg (.Greeting g) = .ok (some rep) →
        (run tl connstr
            (FeWalMessage.CopyData (.Greeting g) :: rest)).replies.head?
          = some rep := by
  constructor
  · simp [run, read_msg, streamLoop_processed_head]
  · intro rep h
    simp [run, read_msg, streamLoop_replies_head tl _ rest rep h]

/-- Witness for C10 at a replying timeline and a one-message stream. -/
theorem greeting_processed_first_witness :
    (run replyTimeline none
        [FeWalMessage.CopyData (.Greeting ⟨1, 1, 7⟩)]).processed.head?
      = some (.Greeting ⟨1, 1, 7⟩)
    ∧ (run replyTimeline none
        [FeWalMessage.CopyData (.Greeting ⟨1, 1, 7⟩)]).replies.head?
      = some ⟨99⟩ :=
  ⟨(greeting_processed_first replyTimeline none ⟨1, 1, 7⟩ []).1,
   (greeting_processed_first replyTimeline none ⟨1, 1, 7⟩ []).2 ⟨99⟩ rfl⟩

end ReceiveWal

